import Mathlib

/-!
Verification of the dataset curation script `import_COCO_dataset.py`.

The script's core logic is embedded shallowly:

* Python's built-in `round` is round-half-to-even on the exact value; we model
  the float arithmetic with exact rationals (`pyRound`), which agrees with the
  float computation at every concrete input appearing in the spec and claims.
* `Dataset.split_dataset` mirrors the Python method line by line; the
  `ZeroDivisionError` raised by `round(train_split_images/total)` when the
  ratio entries sum to zero is modelled by returning `Except.error`.
* The sample-assignment loops of `Dataset.load_dataset` (counter-based
  dispatch of a streamed sequence into train/validation/test buckets, with the
  stream truncated upstream by the `max_samples` arguments of the retrieval
  calls) are embedded as `assignStream`/`assign`/`Dataset.load_dataset`
  over explicit lists; the retrieval service itself is an external
  collaborator, so its output is a parameter.
* The `License` enumeration, its `from_name` lookup and the per-split license
  tally of `license_info` are embedded directly.
* The interactive ratio prompt of `Dataset.user_input` is embedded as a pure
  parse function plus a retry loop over the list of successive user inputs.

The Python field `pos_neg_ratio` is rendered as `pos_neg` here.
-/

namespace COCOImport

/-- Python's built-in `round`: round half to even (banker's rounding),
modelled on exact rationals. -/
def pyRound (q : ℚ) : ℤ :=
  let f := ⌊q⌋
  let r := q - (f : ℚ)
  if r < 1/2 then f
  else if 1/2 < r then f + 1
  else if f % 2 = 0 then f else f + 1

/-- The `Dataset` class: parameters captured by `__init__` / `user_input`.
In the source, `pos_neg_ratio` is a list of integers indexed at 0 and 1 by
`split_dataset`; the two indexed entries are carried as a pair. -/
structure Dataset where
  total_number_of_images : ℤ
  train_split : ℚ
  val_split : ℚ
  test_split : ℚ
  classes : List String
  label_type : List String
  pos_neg : ℤ × ℤ

/-- `Dataset.split_dataset`: per-split image counts, negatives via
`round(split_images/total)*pos_neg_ratio[1]`, positives by subtraction.
Python raises `ZeroDivisionError` at the first division when
`pos_neg_ratio[0] + pos_neg_ratio[1] == 0`; this is the `error` branch.
The six results are returned in the source's order
`(train_negatives, train_positives, val_negatives, val_positives,
test_negatives, test_positives)`. -/
def Dataset.split_dataset (d : Dataset) :
    Except String (ℤ × ℤ × ℤ × ℤ × ℤ × ℤ) :=
  let total := d.pos_neg.1 + d.pos_neg.2
  if total = 0 then .error "ZeroDivisionError: division by zero"
  else
    let train_split_images := pyRound ((d.total_number_of_images : ℚ) * d.train_split)
    let train_split_negatives := pyRound ((train_split_images : ℚ) / (total : ℚ)) * d.pos_neg.2
    let train_split_positives := train_split_images - train_split_negatives
    let val_split_images := pyRound ((d.total_number_of_images : ℚ) * d.val_split)
    let val_split_negatives := pyRound ((val_split_images : ℚ) / (total : ℚ)) * d.pos_neg.2
    let val_split_positives := val_split_images - val_split_negatives
    let test_split_images := pyRound ((d.total_number_of_images : ℚ) * d.test_split)
    let test_split_negatives := pyRound ((test_split_images : ℚ) / (total : ℚ)) * d.pos_neg.2
    let test_split_positives := test_split_images - test_split_negatives
    .ok (train_split_negatives, train_split_positives,
         val_split_negatives, val_split_positives,
         test_split_negatives, test_split_positives)

/-- The per-split counts exactly as the spec's formulas state them:
`split_images = round(total_images * frac)`,
`split_negatives = round(split_images / ratio_total) * negative`,
`split_positives = split_images - split_negatives`.
Returns `(split_negatives, split_positives)`. -/
def specSplitCounts (totalImages : ℤ) (frac : ℚ) (ratioTot negEntry : ℤ) : ℤ × ℤ :=
  let images := pyRound ((totalImages : ℚ) * frac)
  let negs := pyRound ((images : ℚ) / (ratioTot : ℚ)) * negEntry
  (negs, images - negs)

/-- The three bucket datasets built by `load_dataset`
(`datasets = {"train": ..., "validation": ..., "test": ...}`). -/
structure Buckets (α : Type) where
  train : List α
  validation : List α
  test : List α
deriving DecidableEq, Repr

/-- The counter-based dispatch loop of `load_dataset`
(`if count < q1: train` / `elif count < q1 + q2: validation` / `else: test`),
for one stream. `tq` and `vq` are the train and validation quotas for the
stream's class; `count` starts at 0 and increments once per sample. -/
def assignAux (tq vq : ℤ) : ℤ → List α → List α × List α × List α
  | _, [] => ([], [], [])
  | count, s :: rest =>
    let r := assignAux tq vq (count + 1) rest
    if count < tq then (s :: r.1, r.2.1, r.2.2)
    else if count < tq + vq then (r.1, s :: r.2.1, r.2.2)
    else (r.1, r.2.1, s :: r.2.2)

/-- One full pass of the dispatch loop over a stream, counter starting at 0. -/
def assignStream (tq vq : ℤ) (stream : List α) : List α × List α × List α :=
  assignAux tq vq 0 stream

/-- The six counts produced by the planner, named as in the spec's SplitPlan. -/
structure SplitPlan where
  train_negatives : ℤ
  train_positives : ℤ
  val_negatives : ℤ
  val_positives : ℤ
  test_negatives : ℤ
  test_positives : ℤ
deriving DecidableEq, Repr

/-- The positive-stream half of the assigner: the retrieval call caps the
stream at `max_samples = train_positives + val_positives + test_positives`,
then the dispatch loop runs against the positive quotas. -/
def assignPositives (p : SplitPlan) (pos : List α) : List α × List α × List α :=
  assignStream p.train_positives p.val_positives
    (pos.take (p.train_positives + p.val_positives + p.test_positives).toNat)

/-- The negative-stream half of the assigner: stream capped at
`max_samples = train_negatives + val_negatives + test_negatives`, dispatched
against the negative quotas. -/
def assignNegatives (p : SplitPlan) (neg : List α) : List α × List α × List α :=
  assignStream p.train_negatives p.val_negatives
    (neg.take (p.train_negatives + p.val_negatives + p.test_negatives).toNat)

/-- The bucket assigner of §4.2: positives dispatched first, then negatives,
each bucket receiving its positive part followed by its negative part
(`add_sample` appends in iteration order). -/
def assign (p : SplitPlan) (pos neg : List α) : Buckets α :=
  let pp := assignPositives p pos
  let nn := assignNegatives p neg
  ⟨pp.1 ++ nn.1, pp.2.1 ++ nn.2.1, pp.2.2 ++ nn.2.2⟩

/-- `Dataset.load_dataset`: derive the plan, retrieve each stream only when
the corresponding ratio entry is nonzero (`if self.pos_neg_ratio[0] != 0`,
`if self.pos_neg_ratio[1] != 0`), and dispatch. The streams the external
retrieval service would yield (before the `max_samples` cap) are parameters.
A `ZeroDivisionError` from `split_dataset` propagates uncaught. -/
def Dataset.load_dataset (d : Dataset) (pos neg : List α) :
    Except String (Buckets α) :=
  match d.split_dataset with
  | .error e => .error e
  | .ok (tn, tp, vn, vp, ten, tep) =>
    let pp := if d.pos_neg.1 ≠ 0 then
        assignStream tp vp (pos.take (tp + vp + tep).toNat)
      else ([], [], [])
    let nn := if d.pos_neg.2 ≠ 0 then
        assignStream tn vn (neg.take (tn + vn + ten).toNat)
      else ([], [], [])
    .ok ⟨pp.1 ++ nn.1, pp.2.1 ++ nn.2.1, pp.2.2 ++ nn.2.2⟩

/-- The `License` enumeration: 8 members in source order. -/
inductive License where
  | CC_BY
  | CC_BY_SA
  | CC_BY_ND
  | CC_BY_NC
  | CC_BY_NC_SA
  | CC_BY_NC_ND
  | OTHER
  | CC0
deriving DecidableEq, Repr, Fintype

/-- The `license_name` string attached to each `License` member. -/
def License.license_name : License → String
  | .CC_BY => "Attribution License"
  | .CC_BY_SA => "Attribution-ShareAlike License"
  | .CC_BY_ND => "Attribution-NoDerivs License"
  | .CC_BY_NC => "Attribution-NonCommercial License"
  | .CC_BY_NC_SA => "Attribution-NonCommercial-ShareAlike License"
  | .CC_BY_NC_ND => "Attribution-NonCommercial-NoDerivs License"
  | .OTHER => "No known copyright restrictions"
  | .CC0 => "United States Government Work"

/-- The iteration order of `for license_enum in cls` (definition order). -/
def License.members : List License :=
  [.CC_BY, .CC_BY_SA, .CC_BY_ND, .CC_BY_NC, .CC_BY_NC_SA, .CC_BY_NC_ND,
   .OTHER, .CC0]

/-- The loop body of `License.from_name`: return the first member whose
`license_name` equals the query, else fall through. -/
def findLicense (name : String) : List License → License
  | [] => License.CC0
  | l :: rest => if l.license_name = name then l else findLicense name rest

/-- `License.from_name`: first member matching by display name, with the
`return cls.CC0` fallback after the loop. -/
def License.from_name (name : String) : License :=
  findLicense name License.members

/-- The per-category tally of `license_info` for one split: the counter is
initialised to 0 for every member and incremented at
`License.from_name(sample.license)` for each sample. Each sample is carried
as its license string, the only field `license_info` reads. -/
def licenseCounter (samples : List String) (l : License) : ℕ :=
  samples.countP (fun s => License.from_name s = l)

/-- The total image count `license_info` reports for one split
(`len(datasets[split])`). -/
def licenseTotal (samples : List String) : ℕ := samples.length

/-- Python's `str.split(":")`: split a character list at every colon,
yielding one (possibly empty) field per segment. -/
def splitOnColon : List Char → List (List Char)
  | [] => [[]]
  | c :: rest =>
    match splitOnColon rest with
    | [] => [[]]
    | g :: gs => if c = ':' then [] :: g :: gs else (c :: g) :: gs

/-- Python's `str.strip()`: drop leading and trailing whitespace. -/
def stripChars (s : List Char) : List Char :=
  ((s.dropWhile Char.isWhitespace).reverse.dropWhile Char.isWhitespace).reverse

/-- Decimal digit accumulation for `int(...)`. -/
def parseNatAux : ℕ → List Char → Option ℕ
  | acc, [] => some acc
  | acc, c :: rest =>
    if c.isDigit then parseNatAux (acc * 10 + (c.toNat - '0'.toNat)) rest
    else none

/-- Digit-string parse; the empty string is a `ValueError` in `int(...)`. -/
def parseNatChars : List Char → Option ℕ
  | [] => none
  | s => parseNatAux 0 s

/-- Python's `int(...)` on a stripped string: optional sign then decimal
digits; anything else raises `ValueError`, modelled as `none`. -/
def parseIntChars : List Char → Option ℤ
  | '-' :: rest => (parseNatChars rest).map (fun n => -(n : ℤ))
  | '+' :: rest => (parseNatChars rest).map (fun n => (n : ℤ))
  | s => (parseNatChars s).map (fun n => (n : ℤ))

/-- The ratio-prompt parse of `Dataset.user_input`:
`[int(x.strip()) for x in ratio_input.split(":")]`, where a `ValueError`
from any `int(...)` makes the whole attempt fail. The input string is
carried as its character list. -/
def parsePosNeg (s : List Char) : Option (List ℤ) :=
  (splitOnColon s).mapM (fun x => parseIntChars (stripChars x))

/-- The `while True` retry loop around the ratio prompt: successive user
inputs are consumed until one parses, and that parse is stored
(`self.pos_neg_ratio = ...; break`); a parse failure prints a message and
re-prompts. `none` means the supplied attempts were exhausted. -/
def posNegPromptLoop : List (List Char) → Option (List ℤ)
  | [] => none
  | s :: rest =>
    match parsePosNeg s with
    | some l => some l
    | none => posNegPromptLoop rest

/-- The validity property claimed for stored ratios: a pair of exactly two
non-negative integers, not both zero. -/
def ValidPosNegPair (l : List ℤ) : Prop :=
  l.length = 2 ∧ (∀ x ∈ l, 0 ≤ x) ∧ ∃ x ∈ l, x ≠ 0

instance (l : List ℤ) : Decidable (ValidPosNegPair l) := by
  unfold ValidPosNegPair; infer_instance

/-! ### Characterisation of the dispatch loop -/

/-- The dispatch loop with counter `c` splits its stream at the remaining
train capacity `tq - c` and the remaining train+validation capacity
`tq + vq - c`. -/
lemma assignAux_eq (tq vq : ℤ) (hv : 0 ≤ vq) (s : List α) :
    ∀ c : ℤ, assignAux tq vq c s =
      (s.take (tq - c).toNat,
       (s.drop (tq - c).toNat).take ((tq + vq - c).toNat - (tq - c).toNat),
       s.drop ((tq + vq - c).toNat)) := by
  induction s with
  | nil => intro c; simp [assignAux]
  | cons x rest ih =>
    intro c
    by_cases h1 : c < tq
    · have e1 : (tq - c).toNat = (tq - (c + 1)).toNat + 1 := by omega
      have e2 : (tq + vq - c).toNat = (tq + vq - (c + 1)).toNat + 1 := by omega
      have e3 : (tq + vq - c).toNat - (tq - c).toNat
          = (tq + vq - (c + 1)).toNat - (tq - (c + 1)).toNat := by omega
      simp only [assignAux, if_pos h1, ih (c + 1), e1, e2, e3,
        List.take_succ_cons, List.drop_succ_cons, Nat.add_sub_add_right]
    · by_cases h2 : c < tq + vq
      · have e1 : (tq - c).toNat = 0 := by omega
        have e1' : (tq - (c + 1)).toNat = 0 := by omega
        have e2 : (tq + vq - c).toNat = (tq + vq - (c + 1)).toNat + 1 := by omega
        simp only [assignAux, if_neg h1, if_pos h2, ih (c + 1), e1, e1', e2,
          List.take_succ_cons, List.drop_succ_cons, List.drop_zero,
          Nat.zero_sub, Nat.sub_zero, List.take_zero]
      · have e1 : (tq - c).toNat = 0 := by omega
        have e1' : (tq - (c + 1)).toNat = 0 := by omega
        have e2 : (tq + vq - c).toNat = 0 := by omega
        have e2' : (tq + vq - (c + 1)).toNat = 0 := by omega
        simp only [assignAux, if_neg h1, if_neg h2, ih (c + 1), e1, e1', e2, e2',
          List.take_zero, List.drop_zero, Nat.sub_zero]

/-- `assignStream` with natural quotas is take/drop splitting of the stream. -/
lemma assignStream_eq (tp vp : ℕ) (s : List α) :
    assignStream (tp : ℤ) (vp : ℤ) s
      = (s.take tp, (s.drop tp).take vp, s.drop (tp + vp)) := by
  have h := assignAux_eq (tp : ℤ) (vp : ℤ) (by positivity) s 0
  have e1 : ((tp : ℤ) - 0).toNat = tp := by omega
  have e2 : ((tp : ℤ) + (vp : ℤ) - 0).toNat = tp + vp := by omega
  have e3 : tp + vp - tp = vp := by omega
  rw [assignStream, h, e1, e2, e3]

/-- `assign` with natural quotas, written out on both streams. -/
lemma assign_eq (tn tp vn vp ten tep : ℕ) (pos neg : List α) :
    assign ⟨(tn : ℤ), (tp : ℤ), (vn : ℤ), (vp : ℤ), (ten : ℤ), (tep : ℤ)⟩ pos neg
      = ⟨pos.take tp ++ neg.take tn,
         (pos.drop tp).take vp ++ (neg.drop tn).take vn,
         (pos.drop (tp + vp)).take tep ++ (neg.drop (tn + vn)).take ten⟩ := by
  have ep : ((tp : ℤ) + (vp : ℤ) + (tep : ℤ)).toNat = tp + vp + tep := by omega
  have en : ((tn : ℤ) + (vn : ℤ) + (ten : ℤ)).toNat = tn + vn + ten := by omega
  rw [assign, assignPositives, assignNegatives]
  simp only [ep, en, assignStream_eq]
  congr 2
  · rw [List.take_take]; congr 1; omega
  · rw [List.take_take]; congr 1; omega
  · rw [List.drop_take]
    rw [List.take_take]; congr 1; omega
  · rw [List.drop_take]
    rw [List.take_take]; congr 1; omega
  · rw [List.drop_take]; congr 1; omega
  · rw [List.drop_take]; congr 1; omega

/-- Splitting a list into three consecutive chunks and the leftover tail
recovers the list. -/
lemma take_drop_partition (a b c : ℕ) (s : List α) :
    s.take a ++ ((s.drop a).take b
      ++ ((s.drop (a + b)).take c ++ s.drop (a + b + c))) = s := by
  have h1 : s.drop (a + b + c) = (s.drop (a + b)).drop c := by
    rw [List.drop_drop]
  have h2 : s.drop (a + b) = (s.drop a).drop b := by
    rw [List.drop_drop]
  rw [h1, List.take_append_drop, h2, List.take_append_drop, List.take_append_drop]

/-- A count of a predicate true on a superset is the full length. -/
lemma countP_all_true {p : α → Bool} {s t : List α}
    (h : ∀ x ∈ s, p x = true) (hsub : t ⊆ s) : t.countP p = t.length :=
  List.countP_eq_length.mpr (fun a ha => h a (hsub ha))

/-- A count of a predicate false on a superset is zero. -/
lemma countP_all_false {p : α → Bool} {s t : List α}
    (h : ∀ x ∈ s, p x = false) (hsub : t ⊆ s) : t.countP p = 0 := by
  rw [List.countP_eq_zero]
  intro a ha
  simp [h a (hsub ha)]

/-! ### Claim theorems -/

/-- C1: for every request with positive ratio total, the planner computes,
for each split independently, `split_images = round(total_images * frac)`,
`split_negatives = round(split_images / ratio_total) * negative` and
`split_positives = split_images - split_negatives`; in particular
`plan(total=100, fractions=(0.8,0.1,0.1), ratio=(4,1))` returns
`train_negatives=16, train_positives=64, val_negatives=2, val_positives=8,
test_negatives=2, test_positives=8`. -/
theorem C1_planner_formula :
    (∀ d : Dataset, 0 < d.pos_neg.1 + d.pos_neg.2 →
      d.split_dataset = .ok
        ((specSplitCounts d.total_number_of_images d.train_split
            (d.pos_neg.1 + d.pos_neg.2) d.pos_neg.2).1,
         (specSplitCounts d.total_number_of_images d.train_split
            (d.pos_neg.1 + d.pos_neg.2) d.pos_neg.2).2,
         (specSplitCounts d.total_number_of_images d.val_split
            (d.pos_neg.1 + d.pos_neg.2) d.pos_neg.2).1,
         (specSplitCounts d.total_number_of_images d.val_split
            (d.pos_neg.1 + d.pos_neg.2) d.pos_neg.2).2,
         (specSplitCounts d.total_number_of_images d.test_split
            (d.pos_neg.1 + d.pos_neg.2) d.pos_neg.2).1,
         (specSplitCounts d.total_number_of_images d.test_split
            (d.pos_neg.1 + d.pos_neg.2) d.pos_neg.2).2)) ∧
    Dataset.split_dataset ⟨100, 8/10, 1/10, 1/10, [], [], (4, 1)⟩
      = .ok (16, 64, 2, 8, 2, 8) := by
  constructor
  · intro d h
    have hne : ¬(d.pos_neg.1 + d.pos_neg.2 = 0) := by omega
    simp only [Dataset.split_dataset, specSplitCounts, if_neg hne]
  · with_unfolding_all rfl

/-- C1 witness: the general formula instantiated at the spec's end-to-end
example. -/
theorem C1_planner_formula_witness :
    Dataset.split_dataset ⟨100, 8/10, 1/10, 1/10, [], [], (4, 1)⟩
      = .ok
        ((specSplitCounts 100 (8/10) (4 + 1) 1).1,
         (specSplitCounts 100 (8/10) (4 + 1) 1).2,
         (specSplitCounts 100 (1/10) (4 + 1) 1).1,
         (specSplitCounts 100 (1/10) (4 + 1) 1).2,
         (specSplitCounts 100 (1/10) (4 + 1) 1).1,
         (specSplitCounts 100 (1/10) (4 + 1) 1).2) :=
  C1_planner_formula.1 ⟨100, 8/10, 1/10, 1/10, [], [], (4, 1)⟩ (by decide)

/-- C2: for every request with positive ratio total, each split's negatives
plus positives equals the rounded split size, and the grand total of the six
counts equals the sum of the three independently rounded split sizes — which
can drift from `total_images`, as at `total=3, fractions=(0.5,0.5,0)` where
the six counts sum to 4. -/
theorem C2_per_split_sum :
    (∀ (d : Dataset) (tn tp vn vp ten tep : ℤ),
      0 < d.pos_neg.1 + d.pos_neg.2 →
      d.split_dataset = .ok (tn, tp, vn, vp, ten, tep) →
      tn + tp = pyRound ((d.total_number_of_images : ℚ) * d.train_split) ∧
      vn + vp = pyRound ((d.total_number_of_images : ℚ) * d.val_split) ∧
      ten + tep = pyRound ((d.total_number_of_images : ℚ) * d.test_split) ∧
      tn + tp + vn + vp + ten + tep
        = pyRound ((d.total_number_of_images : ℚ) * d.train_split)
          + pyRound ((d.total_number_of_images : ℚ) * d.val_split)
          + pyRound ((d.total_number_of_images : ℚ) * d.test_split)) ∧
    (Dataset.split_dataset ⟨3, 1/2, 1/2, 0, [], [], (1, 0)⟩
        = .ok (0, 2, 0, 2, 0, 0) ∧ (0 + 2 + 0 + 2 + 0 + 0 : ℤ) ≠ 3) := by
  constructor
  · intro d tn tp vn vp ten tep h hok
    have hne : ¬(d.pos_neg.1 + d.pos_neg.2 = 0) := by omega
    simp only [Dataset.split_dataset, if_neg hne, Except.ok.injEq,
      Prod.mk.injEq] at hok
    obtain ⟨e1, e2, e3, e4, e5, e6⟩ := hok
    refine ⟨by omega, by omega, by omega, by omega⟩
  · constructor
    · with_unfolding_all rfl
    · decide

/-- C2 witness: the per-split sums at the end-to-end example request. -/
theorem C2_per_split_sum_witness :
    (16 : ℤ) + 64 = pyRound ((100 : ℚ) * (8/10)) ∧
    (2 : ℤ) + 8 = pyRound ((100 : ℚ) * (1/10)) ∧
    (2 : ℤ) + 8 = pyRound ((100 : ℚ) * (1/10)) ∧
    (16 : ℤ) + 64 + 2 + 8 + 2 + 8
      = pyRound ((100 : ℚ) * (8/10)) + pyRound ((100 : ℚ) * (1/10))
        + pyRound ((100 : ℚ) * (1/10)) :=
  C2_per_split_sum.1 ⟨100, 8/10, 1/10, 1/10, [], [], (4, 1)⟩
    16 64 2 8 2 8 (by decide) (by with_unfolding_all rfl)

/-- C6: a ratio summing to zero makes the planner fail with the
division-by-zero error, and `load_dataset` propagates that failure uncaught
instead of recovering. -/
theorem C6_zero_ratio_error :
    ∀ (α : Type) (d : Dataset) (pos neg : List α),
      d.pos_neg.1 + d.pos_neg.2 = 0 →
      d.split_dataset = .error "ZeroDivisionError: division by zero" ∧
      d.load_dataset pos neg
        = .error "ZeroDivisionError: division by zero" := by
  intro α d pos neg h
  have hsd : d.split_dataset = .error "ZeroDivisionError: division by zero" := by
    simp only [Dataset.split_dataset, if_pos h]
  exact ⟨hsd, by simp only [Dataset.load_dataset, hsd]⟩

/-- C6 witness: the zero ratio `(0, 0)` at a concrete request. -/
theorem C6_zero_ratio_error_witness :
    Dataset.split_dataset ⟨300, 7/10, 2/10, 1/10, [], [], (0, 0)⟩
      = .error "ZeroDivisionError: division by zero" ∧
    Dataset.load_dataset ⟨300, 7/10, 2/10, 1/10, [], [], (0, 0)⟩
        [(1 : ℕ), 2] [3]
      = .error "ZeroDivisionError: division by zero" :=
  C6_zero_ratio_error ℕ ⟨300, 7/10, 2/10, 1/10, [], [], (0, 0)⟩
    [1, 2] [3] (by decide)

/-- C7: an input with valid fractions and positive ratio total on which the
planner returns a negative positives count without clamping: at
`total=3, fractions=(1,0,0), ratio=(1,4)` the train split gets 4 negatives
and `-1` positives; in general, whenever the computed negatives of a split
exceed the split's rounded image count, that split's positives are negative. -/
theorem C7_negative_positives :
    (Dataset.split_dataset ⟨3, 1, 0, 0, [], [], (1, 4)⟩
        = .ok (4, -1, 0, 0, 0, 0) ∧
      (0 : ℚ) ≤ 1 ∧ (1 : ℚ) ≤ 1 ∧ (1 + 0 + 0 : ℚ) = 1 ∧
      (0 : ℤ) < 1 + 4 ∧ (-1 : ℤ) < 0) ∧
    (∀ (d : Dataset) (tn tp vn vp ten tep : ℤ),
      0 < d.pos_neg.1 + d.pos_neg.2 →
      d.split_dataset = .ok (tn, tp, vn, vp, ten, tep) →
      pyRound ((d.total_number_of_images : ℚ) * d.train_split) < tn →
      tp < 0) := by
  constructor
  · exact ⟨by with_unfolding_all rfl, by norm_num⟩
  · intro d tn tp vn vp ten tep h hok hgt
    have hne : ¬(d.pos_neg.1 + d.pos_neg.2 = 0) := by omega
    simp only [Dataset.split_dataset, if_neg hne, Except.ok.injEq,
      Prod.mk.injEq] at hok
    obtain ⟨e1, e2, e3, e4, e5, e6⟩ := hok
    omega

/-- C7 witness: the general no-clamping fact applied at the concrete
skewed-ratio input. -/
theorem C7_negative_positives_witness : (-1 : ℤ) < 0 :=
  C7_negative_positives.2 ⟨3, 1, 0, 0, [], [], (1, 4)⟩
    4 (-1) 0 0 0 0 (by decide) (by with_unfolding_all rfl)
    (by with_unfolding_all decide)

/-- C3: for every plan and pair of streams, the assigner sends the first
`train_positives` items of the positive stream to train, the next
`val_positives` to validation, the remainder (up to `test_positives`) to
test; the same holds for the negative stream against the negative quotas;
items beyond the quota totals are ignored, and each stream is exactly the
concatenation of its three dispatched chunks and its ignored tail, so every
sample lands in exactly one split or is dropped. -/
theorem C3_assigner_order :
    ∀ (α : Type) (tn tp vn vp ten tep : ℕ) (pos neg : List α),
      assign ⟨(tn : ℤ), (tp : ℤ), (vn : ℤ), (vp : ℤ), (ten : ℤ), (tep : ℤ)⟩
          pos neg
        = ⟨pos.take tp ++ neg.take tn,
           (pos.drop tp).take vp ++ (neg.drop tn).take vn,
           (pos.drop (tp + vp)).take tep ++ (neg.drop (tn + vn)).take ten⟩ ∧
      pos.take tp ++ ((pos.drop tp).take vp
        ++ ((pos.drop (tp + vp)).take tep ++ pos.drop (tp + vp + tep))) = pos ∧
      neg.take tn ++ ((neg.drop tn).take vn
        ++ ((neg.drop (tn + vn)).take ten ++ neg.drop (tn + vn + ten))) = neg :=
  fun _ tn tp vn vp ten tep pos neg =>
    ⟨assign_eq tn tp vn vp ten tep pos neg,
     take_drop_partition tp vp tep pos,
     take_drop_partition tn vn ten neg⟩

/-- C4: with streams of exactly the quota totals, every bucket's
class-presence counts equal the plan's six counts, and each bucket is the
order-preserving concatenation of its positive chunk and negative chunk. -/
theorem C4_round_trip :
    ∀ (α : Type) (isPos : α → Bool) (tn tp vn vp ten tep : ℕ)
      (pos neg : List α),
      (∀ x ∈ pos, isPos x = true) →
      (∀ x ∈ neg, isPos x = false) →
      pos.length = tp + vp + tep →
      neg.length = tn + vn + ten →
      ((assign ⟨(tn : ℤ), (tp : ℤ), (vn : ℤ), (vp : ℤ), (ten : ℤ), (tep : ℤ)⟩
          pos neg).train.countP isPos = tp ∧
       (assign ⟨(tn : ℤ), (tp : ℤ), (vn : ℤ), (vp : ℤ), (ten : ℤ), (tep : ℤ)⟩
          pos neg).validation.countP isPos = vp ∧
       (assign ⟨(tn : ℤ), (tp : ℤ), (vn : ℤ), (vp : ℤ), (ten : ℤ), (tep : ℤ)⟩
          pos neg).test.countP isPos = tep ∧
       (assign ⟨(tn : ℤ), (tp : ℤ), (vn : ℤ), (vp : ℤ), (ten : ℤ), (tep : ℤ)⟩
          pos neg).train.countP (fun x => !(isPos x)) = tn ∧
       (assign ⟨(tn : ℤ), (tp : ℤ), (vn : ℤ), (vp : ℤ), (ten : ℤ), (tep : ℤ)⟩
          pos neg).validation.countP (fun x => !(isPos x)) = vn ∧
       (assign ⟨(tn : ℤ), (tp : ℤ), (vn : ℤ), (vp : ℤ), (ten : ℤ), (tep : ℤ)⟩
          pos neg).test.countP (fun x => !(isPos x)) = ten) ∧
      (assign ⟨(tn : ℤ), (tp : ℤ), (vn : ℤ), (vp : ℤ), (ten : ℤ), (tep : ℤ)⟩
          pos neg).train = pos.take tp ++ neg.take tn ∧
      (assign ⟨(tn : ℤ), (tp : ℤ), (vn : ℤ), (vp : ℤ), (ten : ℤ), (tep : ℤ)⟩
          pos neg).validation
        = (pos.drop tp).take vp ++ (neg.drop tn).take vn ∧
      (assign ⟨(tn : ℤ), (tp : ℤ), (vn : ℤ), (vp : ℤ), (ten : ℤ), (tep : ℤ)⟩
          pos neg).test
        = (pos.drop (tp + vp)).take tep ++ (neg.drop (tn + vn)).take ten := by
  intro α isPos tn tp vn vp ten tep pos neg hpos hneg hplen hnlen
  have hneg' : ∀ x ∈ neg, (fun x => !(isPos x)) x = true := by
    intro x hx
    simp [hneg x hx]
  have hpos' : ∀ x ∈ pos, (fun x => !(isPos x)) x = false := by
    intro x hx
    simp [hpos x hx]
  rw [assign_eq tn tp vn vp ten tep pos neg]
  refine ⟨⟨?_, ?_, ?_, ?_, ?_, ?_⟩, rfl, rfl, rfl⟩ <;>
    rw [List.countP_append] <;>
    first
    | (rw [countP_all_true hpos (List.take_subset _ _),
          countP_all_false hneg (List.take_subset _ _),
          List.length_take]
       omega)
    | (rw [countP_all_true hpos (subset_trans (List.take_subset _ _)
            (List.drop_subset _ _)),
          countP_all_false hneg (subset_trans (List.take_subset _ _)
            (List.drop_subset _ _)),
          List.length_take, List.length_drop]
       omega)
    | (rw [countP_all_false hpos' (List.take_subset _ _),
          countP_all_true hneg' (List.take_subset _ _),
          List.length_take]
       omega)
    | (rw [countP_all_false hpos' (subset_trans (List.take_subset _ _)
            (List.drop_subset _ _)),
          countP_all_true hneg' (subset_trans (List.take_subset _ _)
            (List.drop_subset _ _)),
          List.length_take, List.length_drop]
       omega)

/-- C4 witness: a concrete round trip at plan
`(tn, tp, vn, vp, ten, tep) = (1, 2, 0, 1, 0, 0)` with full-length streams
of booleans marking class presence. -/
theorem C4_round_trip_witness :
    ((assign ⟨(1 : ℤ), (2 : ℤ), (0 : ℤ), (1 : ℤ), (0 : ℤ), (0 : ℤ)⟩
        [true, true, true] [false]).train.countP (fun b => b) = 2 ∧
     (assign ⟨(1 : ℤ), (2 : ℤ), (0 : ℤ), (1 : ℤ), (0 : ℤ), (0 : ℤ)⟩
        [true, true, true] [false]).validation.countP (fun b => b) = 1 ∧
     (assign ⟨(1 : ℤ), (2 : ℤ), (0 : ℤ), (1 : ℤ), (0 : ℤ), (0 : ℤ)⟩
        [true, true, true] [false]).test.countP (fun b => b) = 0 ∧
     (assign ⟨(1 : ℤ), (2 : ℤ), (0 : ℤ), (1 : ℤ), (0 : ℤ), (0 : ℤ)⟩
        [true, true, true] [false]).train.countP (fun b => !(b : Bool)) = 1 ∧
     (assign ⟨(1 : ℤ), (2 : ℤ), (0 : ℤ), (1 : ℤ), (0 : ℤ), (0 : ℤ)⟩
        [true, true, true] [false]).validation.countP (fun b => !(b : Bool)) = 0 ∧
     (assign ⟨(1 : ℤ), (2 : ℤ), (0 : ℤ), (1 : ℤ), (0 : ℤ), (0 : ℤ)⟩
        [true, true, true] [false]).test.countP (fun b => !(b : Bool)) = 0) ∧
    (assign ⟨(1 : ℤ), (2 : ℤ), (0 : ℤ), (1 : ℤ), (0 : ℤ), (0 : ℤ)⟩
        [true, true, true] [false]).train
      = [true, true, true].take 2 ++ [false].take 1 ∧
    (assign ⟨(1 : ℤ), (2 : ℤ), (0 : ℤ), (1 : ℤ), (0 : ℤ), (0 : ℤ)⟩
        [true, true, true] [false]).validation
      = ([true, true, true].drop 2).take 1 ++ ([false].drop 1).take 0 ∧
    (assign ⟨(1 : ℤ), (2 : ℤ), (0 : ℤ), (1 : ℤ), (0 : ℤ), (0 : ℤ)⟩
        [true, true, true] [false]).test
      = ([true, true, true].drop 3).take 0 ++ ([false].drop 1).take 0 :=
  C4_round_trip Bool (fun b => b) 1 2 0 1 0 0 [true, true, true] [false]
    (by decide) (by decide) (by decide) (by decide)

/-- C5 counterexample: at plan `(0, 2, 0, 1, 0, 1)` and a one-item positive
stream (shorter than the positive quota total 4), train receives 1 item,
not its capacity `train_positives = 2`, refuting "fills train to capacity
first ... and only test receives fewer items than requested". -/
theorem C5_counterexample :
    ([(0 : ℕ)] : List ℕ).length < 2 + 1 + 1 ∧
    (assign ⟨0, 2, 0, 1, 0, 1⟩ [(0 : ℕ)] []).train.length = 1 ∧
    ((assign ⟨0, 2, 0, 1, 0, 1⟩ [(0 : ℕ)] []).train.length : ℤ)
      ≠ SplitPlan.train_positives ⟨0, 2, 0, 1, 0, 1⟩ := by
  refine ⟨by decide, by decide, by decide⟩

/-- C5 amended: on a positive stream shorter than the positive quota total
(negative stream empty), buckets are filled in priority order — train gets
`min train_positives |pos|` items, validation `min val_positives
(|pos| - train_positives)`, test the truncated remainder — so whenever the
stream covers train and validation, those two are filled to capacity and
only test receives fewer than requested; the assigner is a total function,
so no error is raised. -/
theorem C5_starvation_amended :
    ∀ (α : Type) (tn tp vn vp ten tep : ℕ) (pos : List α),
      pos.length < tp + vp + tep →
      (assign ⟨(tn : ℤ), (tp : ℤ), (vn : ℤ), (vp : ℤ), (ten : ℤ), (tep : ℤ)⟩
          pos ([] : List α)).train.length = min tp pos.length ∧
      (assign ⟨(tn : ℤ), (tp : ℤ), (vn : ℤ), (vp : ℤ), (ten : ℤ), (tep : ℤ)⟩
          pos ([] : List α)).validation.length
        = min vp (pos.length - tp) ∧
      (assign ⟨(tn : ℤ), (tp : ℤ), (vn : ℤ), (vp : ℤ), (ten : ℤ), (tep : ℤ)⟩
          pos ([] : List α)).test.length = pos.length - tp - vp ∧
      (tp + vp ≤ pos.length →
        (assign ⟨(tn : ℤ), (tp : ℤ), (vn : ℤ), (vp : ℤ), (ten : ℤ), (tep : ℤ)⟩
            pos ([] : List α)).train.length = tp ∧
        (assign ⟨(tn : ℤ), (tp : ℤ), (vn : ℤ), (vp : ℤ), (ten : ℤ), (tep : ℤ)⟩
            pos ([] : List α)).validation.length = vp ∧
        (assign ⟨(tn : ℤ), (tp : ℤ), (vn : ℤ), (vp : ℤ), (ten : ℤ), (tep : ℤ)⟩
            pos ([] : List α)).test.length < tep) := by
  intro α tn tp vn vp ten tep pos h
  refine ⟨?_, ?_, ?_, fun hc => ⟨?_, ?_, ?_⟩⟩ <;>
    rw [assign_eq tn tp vn vp ten tep pos ([] : List α)] <;>
    simp only [List.take_nil, List.drop_nil, List.append_nil,
      List.length_take, List.length_drop] <;>
    omega

/-- C5 witness: the amended starvation behaviour at plan
`(0, 2, 0, 1, 0, 2)` with a 4-item positive stream. -/
theorem C5_starvation_amended_witness :
    (assign ⟨(0 : ℤ), (2 : ℤ), (0 : ℤ), (1 : ℤ), (0 : ℤ), (2 : ℤ)⟩
        [(0 : ℕ), 1, 2, 3] ([] : List ℕ)).train.length
      = min 2 [(0 : ℕ), 1, 2, 3].length ∧
    (assign ⟨(0 : ℤ), (2 : ℤ), (0 : ℤ), (1 : ℤ), (0 : ℤ), (2 : ℤ)⟩
        [(0 : ℕ), 1, 2, 3] ([] : List ℕ)).validation.length
      = min 1 ([(0 : ℕ), 1, 2, 3].length - 2) ∧
    (assign ⟨(0 : ℤ), (2 : ℤ), (0 : ℤ), (1 : ℤ), (0 : ℤ), (2 : ℤ)⟩
        [(0 : ℕ), 1, 2, 3] ([] : List ℕ)).test.length
      = [(0 : ℕ), 1, 2, 3].length - 2 - 1 ∧
    (2 + 1 ≤ [(0 : ℕ), 1, 2, 3].length →
      (assign ⟨(0 : ℤ), (2 : ℤ), (0 : ℤ), (1 : ℤ), (0 : ℤ), (2 : ℤ)⟩
          [(0 : ℕ), 1, 2, 3] ([] : List ℕ)).train.length = 2 ∧
      (assign ⟨(0 : ℤ), (2 : ℤ), (0 : ℤ), (1 : ℤ), (0 : ℤ), (2 : ℤ)⟩
          [(0 : ℕ), 1, 2, 3] ([] : List ℕ)).validation.length = 1 ∧
      (assign ⟨(0 : ℤ), (2 : ℤ), (0 : ℤ), (1 : ℤ), (0 : ℤ), (2 : ℤ)⟩
          [(0 : ℕ), 1, 2, 3] ([] : List ℕ)).test.length < 2) :=
  C5_starvation_amended ℕ 0 2 0 1 0 2 [0, 1, 2, 3] (by decide)

/-- C8: `License.from_name` matches exactly by display name over the 8
members, every unmatched string falls back to the last member `CC0` without
erroring, and the split of 3 samples tagged "Attribution License",
"Attribution License", "unknown-string" tallies to `CC_BY: 2`, `CC0: 1`,
all other categories 0, with total image count 3. -/
theorem C8_license_tally :
    (∀ l : License, License.from_name l.license_name = l) ∧
    (∀ s : String, (∀ l : License, l.license_name ≠ s) →
      License.from_name s = License.CC0) ∧
    licenseCounter ["Attribution License", "Attribution License",
      "unknown-string"] License.CC_BY = 2 ∧
    licenseCounter ["Attribution License", "Attribution License",
      "unknown-string"] License.CC0 = 1 ∧
    (∀ l : License, l ≠ License.CC_BY → l ≠ License.CC0 →
      licenseCounter ["Attribution License", "Attribution License",
        "unknown-string"] l = 0) ∧
    licenseTotal ["Attribution License", "Attribution License",
      "unknown-string"] = 3 := by
  refine ⟨?_, ?_, ?_, ?_, ?_, ?_⟩
  · intro l
    cases l <;> rfl
  · intro s h
    simp only [License.from_name, License.members, findLicense,
      if_neg (h License.CC_BY), if_neg (h License.CC_BY_SA),
      if_neg (h License.CC_BY_ND), if_neg (h License.CC_BY_NC),
      if_neg (h License.CC_BY_NC_SA), if_neg (h License.CC_BY_NC_ND),
      if_neg (h License.OTHER), if_neg (h License.CC0)]
  · decide
  · decide
  · intro l h1 h2
    cases l <;> first | exact absurd rfl h1 | exact absurd rfl h2 | decide
  · decide

/-- C8 witness: the fallback clause applied at the unmatched string of the
spec's tally example. -/
theorem C8_license_tally_witness :
    License.from_name "unknown-string" = License.CC0 :=
  C8_license_tally.2.1 "unknown-string" (by decide)

/-- C9 counterexample: the ratio attempt "0:0" is accepted by the prompt
loop and stored as `[0, 0]`, which is not a pair of non-negative integers
that are not both zero — the loop performs no such validation. -/
theorem C9_counterexample :
    posNegPromptLoop ["0:0".toList] = some [0, 0] ∧
    ¬ ValidPosNegPair [0, 0] :=
  ⟨by decide, by decide⟩

/-- C9 amended: the prompt loop stores the colon-split integer parse of the
first attempt on which every field parses as an integer, re-prompting past
earlier attempts (each of which failed to parse); no length, sign or
not-both-zero check is applied to the stored list. -/
theorem C9_prompt_amended :
    ∀ (attempts : List (List Char)) (l : List ℤ),
      posNegPromptLoop attempts = some l →
      ∃ pre s post, attempts = pre ++ s :: post ∧
        (∀ t ∈ pre, parsePosNeg t = none) ∧
        parsePosNeg s = some l := by
  intro attempts
  induction attempts with
  | nil =>
    intro l hl
    simp [posNegPromptLoop] at hl
  | cons a rest ih =>
    intro l hl
    cases ha : parsePosNeg a with
    | some l0 =>
      simp only [posNegPromptLoop, ha] at hl
      obtain rfl : l0 = l := Option.some.inj hl
      exact ⟨[], a, rest, rfl, by simp, ha⟩
    | none =>
      simp only [posNegPromptLoop, ha] at hl
      obtain ⟨pre, s, post, e1, e2, e3⟩ := ih l hl
      refine ⟨a :: pre, s, post, by rw [e1]; rfl, ?_, e3⟩
      intro t ht
      rcases List.mem_cons.mp ht with h | h
      · rw [h]; exact ha
      · exact e2 t h

/-- C9 witness: the amended prompt behaviour on the attempt sequence
"x:y" (rejected, re-prompted) then "3:1" (accepted and stored). -/
theorem C9_prompt_amended_witness :
    ∃ pre s post,
      [("x:y".toList : List Char), "3:1".toList] = pre ++ s :: post ∧
      (∀ t ∈ pre, parsePosNeg t = none) ∧
      parsePosNeg s = some [3, 1] :=
  C9_prompt_amended ["x:y".toList, "3:1".toList] [3, 1] (by decide)

/-- C10: when the first ratio entry is 0, `load_dataset` skips the positive
stream entirely — the result is the same as with an empty positive stream —
and symmetrically for the second entry and the negative stream; concretely,
at `total=7, fractions=(1,0,0), ratio=(0,5)` the plan allots 2 train
positives, yet a 2-item positive stream contributes nothing and every
bucket stays empty. -/
theorem C10_ratio_zero_guard :
    (∀ (α : Type) (d : Dataset) (pos neg : List α),
      d.pos_neg.1 = 0 →
      d.load_dataset pos neg = d.load_dataset ([] : List α) neg) ∧
    (∀ (α : Type) (d : Dataset) (pos neg : List α),
      d.pos_neg.2 = 0 →
      d.load_dataset pos neg = d.load_dataset pos ([] : List α)) ∧
    Dataset.split_dataset ⟨7, 1, 0, 0, [], [], (0, 5)⟩
      = .ok (5, 2, 0, 0, 0, 0) ∧
    Dataset.load_dataset ⟨7, 1, 0, 0, [], [], (0, 5)⟩ [(10 : ℕ), 20] []
      = .ok ⟨[], [], []⟩ := by
  refine ⟨?_, ?_, ?_, ?_⟩
  · intro α d pos neg h
    cases hsd : d.split_dataset with
    | error e => simp [Dataset.load_dataset, hsd]
    | ok t =>
      obtain ⟨tn, tp, vn, vp, ten, tep⟩ := t
      simp [Dataset.load_dataset, hsd, h]
  · intro α d pos neg h
    cases hsd : d.split_dataset with
    | error e => simp [Dataset.load_dataset, hsd]
    | ok t =>
      obtain ⟨tn, tp, vn, vp, ten, tep⟩ := t
      simp [Dataset.load_dataset, hsd, h]
  · with_unfolding_all rfl
  · with_unfolding_all rfl

/-- C10 witness: the positive-stream skip at the concrete `(0,5)` request. -/
theorem C10_ratio_zero_guard_witness :
    Dataset.load_dataset ⟨7, 1, 0, 0, [], [], (0, 5)⟩ [(10 : ℕ), 20] [30]
      = Dataset.load_dataset ⟨7, 1, 0, 0, [], [], (0, 5)⟩ ([] : List ℕ) [30] :=
  C10_ratio_zero_guard.1 ℕ ⟨7, 1, 0, 0, [], [], (0, 5)⟩ [10, 20] [30]
    (by decide)

end COCOImport
